import Mathlib

/-!
Verification of the HealthAssist HRV analytics core.

The Python source (`src/dashboard/hrv/index_1.py`, `index_2.py`) is a
pandas pipeline.  It is shallow-embedded here as follows:

* floats are modeled as `ℚ`; a possibly-missing / NaN float is `Option ℚ`
  (`none` = NaN or absent);
* a pandas Series aggregation (`mean`, `median`, `quantile`, `min`,
  `nsmallest`) skips NaN entries and yields NaN on an empty set of
  values, exactly as pandas does; `quantile` uses pandas' default linear
  interpolation;
* the Python dict of baselines is an association list
  `List (String × Option ℚ)`;
* `round(x, 1)` is rounding to one decimal; exact ties (unreachable from
  binary floats) are idealized to round-half-up;
* `int(n * 0.3)` is `3 * n / 10` in `ℕ`: the two agree on IEEE doubles
  for every record count arising here.
-/

namespace HealthAssist

/-- Rounding to one decimal place, modeling Python `round(x, 1)`. -/
def round1 (x : ℚ) : ℚ := (round (10 * x) : ℤ) / 10

theorem round1_mono {x y : ℚ} (h : x ≤ y) : round1 x ≤ round1 y := by
  unfold round1
  have h10 : (10 : ℚ) * x ≤ 10 * y := by linarith
  have : round (10 * x) ≤ round (10 * y) := by
    rw [round_eq, round_eq]
    exact Int.floor_mono (by linarith)
  have : ((round (10 * x) : ℤ) : ℚ) ≤ ((round (10 * y) : ℤ) : ℚ) := by exact_mod_cast this
  linarith

theorem round1_le (x : ℚ) : round1 x ≤ x + 1 / 20 := by
  unfold round1
  have h := round_le_add_half (10 * x)
  rw [div_le_iff₀ (by norm_num : (0:ℚ) < 10)]
  linarith

theorem round1_zero : round1 0 = 0 := by
  unfold round1; norm_num

theorem round1_hundred : round1 100 = 100 := by
  unfold round1
  have h : round ((1000 : ℤ) : ℚ) = 1000 := round_intCast 1000
  norm_num at h ⊢

theorem round1_three : round1 3 = 3 := by
  unfold round1
  have h : round ((30 : ℤ) : ℚ) = 30 := round_intCast 30
  norm_num at h ⊢

/-- A value in `[0, c]` stays in `[0, c]` after rounding to one decimal,
provided `round1` fixes the endpoints. -/
theorem round1_mem_Icc {x c : ℚ} (h0 : 0 ≤ x) (hc : x ≤ c) (hfix : round1 c = c) :
    0 ≤ round1 x ∧ round1 x ≤ c := by
  constructor
  · have := round1_mono h0
    rwa [round1_zero] at this
  · have := round1_mono hc
    rwa [hfix] at this

/-! ### pandas-style aggregations -/

/-- Ascending stable sort of a column's values. -/
def sortVals (xs : List ℚ) : List ℚ := xs.insertionSort (· ≤ ·)

theorem sortVals_perm (xs : List ℚ) : List.Perm (sortVals xs) xs :=
  List.perm_insertionSort _ xs

theorem sortVals_sorted (xs : List ℚ) : (sortVals xs).Sorted (· ≤ ·) :=
  List.sorted_insertionSort _ xs

theorem sortVals_length (xs : List ℚ) : (sortVals xs).length = xs.length :=
  (sortVals_perm xs).length_eq

/-- pandas `Series.quantile(q)` with the default linear interpolation:
with the `n` values sorted ascending and `h = q (n - 1)`, interpolate
between positions `⌊h⌋` and `⌊h⌋ + 1`. -/
def pdQuantile (q : ℚ) (xs : List ℚ) : ℚ :=
  let s := sortVals xs
  let h : ℚ := q * ((s.length : ℚ) - 1)
  let i : ℕ := (Int.floor h).toNat
  match s.get? i, s.get? (i + 1) with
  | some a, some b => a + (h - (i : ℚ)) * (b - a)
  | some a, none => a
  | none, _ => 0

/-- pandas `Series.median()` (= `quantile(0.5)`). -/
def pdMedian (xs : List ℚ) : ℚ := pdQuantile (1/2) xs

/-- pandas `Series.min()` on a nonempty column. -/
def pdMin (xs : List ℚ) : ℚ := (sortVals xs).headD 0

/-- pandas `Series.mean()` on a nonempty column. -/
def pdMean (xs : List ℚ) : ℚ := xs.sum / xs.length

/-- The non-NaN entries of a column. -/
def presentVals (xs : List (Option ℚ)) : List ℚ := xs.filterMap id

/-- pandas `mean` over a column that may contain NaN: NaN entries are
skipped, and the mean of no values is NaN. -/
def pdMeanOpt (xs : List (Option ℚ)) : Option ℚ :=
  let v := presentVals xs
  if v.isEmpty then none else some (pdMean v)

/-- pandas `median` over a column that may contain NaN. -/
def pdMedianOpt (xs : List (Option ℚ)) : Option ℚ :=
  let v := presentVals xs
  if v.isEmpty then none else some (pdMedian v)

/-- pandas `quantile` over a column that may contain NaN. -/
def pdQuantileOpt (q : ℚ) (xs : List (Option ℚ)) : Option ℚ :=
  let v := presentVals xs
  if v.isEmpty then none else some (pdQuantile q v)

theorem pdMin_mem {xs : List ℚ} (h : xs ≠ []) : pdMin xs ∈ xs := by
  have hlen : (sortVals xs).length = xs.length := sortVals_length xs
  have hne : sortVals xs ≠ [] := by
    intro hnil
    apply h
    have := hlen
    rw [hnil] at this
    exact List.length_eq_zero.mp this.symm
  obtain ⟨a, t, hat⟩ := List.exists_cons_of_ne_nil hne
  have : pdMin xs = a := by simp [pdMin, hat]
  rw [this]
  exact (sortVals_perm xs).mem_iff.mp (by simp [hat])

theorem pdMin_le {xs : List ℚ} {x : ℚ} (hx : x ∈ xs) : pdMin xs ≤ x := by
  have hmem : x ∈ sortVals xs := (sortVals_perm xs).mem_iff.mpr hx
  obtain ⟨a, t, hat⟩ := List.exists_cons_of_ne_nil (List.ne_nil_of_mem hmem)
  have hsorted := sortVals_sorted xs
  rw [hat] at hsorted hmem
  have : pdMin xs = a := by simp [pdMin, hat]
  rw [this]
  rcases List.mem_cons.mp hmem with h | h
  · exact h ▸ le_refl _
  · exact (List.pairwise_cons.mp hsorted).1 x h

/-! ### Data model

One row of the joined session table (`get_hrv_data` / `fetch_all_records`).
`date` is the calendar date (a day index) derived from the timestamp in
the reference timezone; `timestampMin` is the timestamp in minutes.
`heart_rate` comes from the session row and is always present; the
HRV-metric columns come from a LEFT JOIN and may be NaN.  Columns the
analytics never reads (quality indicators, ids, …) are omitted. -/

structure SessionRec where
  date : Int
  timestampMin : ℚ
  heartRate : ℚ
  mean_rr : Option ℚ
  sdnn : Option ℚ
  rmssd : Option ℚ
  breathingRate : Option ℚ
  lf_hf : Option ℚ
  tags : List String

/-- `'Sleep' in x` on the record's tag list. -/
def isSleep (r : SessionRec) : Bool := r.tags.contains "Sleep"

/-- One row of the `night_data` table built by `calculate_night_metrics`,
with the `sleep_quality` / `recovery_score` columns attached later by
`calculate_recovery_score` (absent = not attached / NaN). -/
structure NightMetrics where
  date : Int
  mean_rr : Option ℚ
  sdnn : Option ℚ
  rmssd : Option ℚ
  lf_hf_ratio : Option ℚ
  breathing_rate : Option ℚ
  mean_hr : Option ℚ
  rhr : Option ℚ
  record_count : ℕ
  duration_minutes : ℚ
  sleep_quality : Option ℚ := none
  recovery_score : Option ℚ := none

/-! ### Night Aggregator (`calculate_night_metrics`, index_1.py) -/

/-- The `rhr` aggregate of a night group (shared rule of both engines):
10th percentile of `heartRate` with ≥ 3 records, else the minimum. -/
def rhrOfHeartRates (hrs : List ℚ) : ℚ :=
  if 3 ≤ hrs.length then pdQuantile (1/10) hrs else pdMin hrs

/-- Wall-clock span of a group in minutes: `max(timestamp) − min(timestamp)`. -/
def spanMinutes (ts : List ℚ) : ℚ :=
  match ts with
  | [] => 0
  | t :: rest => rest.foldl max t - rest.foldl min t

/-- One night's consolidated metrics row. -/
def nightMetricsRow (date : Int) (group : List SessionRec) : NightMetrics :=
  let mean_rr := pdMeanOpt (group.map SessionRec.mean_rr)
  let mean_hr : Option ℚ :=
    match mean_rr with
    | some m => if 0 < m then some (60000 / m) else none
    | none => none
  { date := date
    mean_rr := mean_rr
    sdnn := pdMeanOpt (group.map SessionRec.sdnn)
    rmssd := pdMeanOpt (group.map SessionRec.rmssd)
    lf_hf_ratio := pdMeanOpt (group.map SessionRec.lf_hf)
    breathing_rate := pdMeanOpt (group.map SessionRec.breathingRate)
    mean_hr := mean_hr
    rhr := some (rhrOfHeartRates (group.map SessionRec.heartRate))
    record_count := group.length
    duration_minutes := spanMinutes (group.map SessionRec.timestampMin) }

/-- The ascending list of distinct dates of a record set (pandas `groupby`
iterates groups in ascending key order; `sorted(unique)` does the same). -/
def uniqueDatesSorted (dates : List Int) : List Int :=
  dates.dedup.insertionSort (· ≤ ·)

/-- `calculate_night_metrics`: one row per calendar date with ≥ 1
Sleep-tagged record. -/
def calculate_night_metrics (df : List SessionRec) : List NightMetrics :=
  let sleep := df.filter isSleep
  (uniqueDatesSorted (sleep.map SessionRec.date)).map
    (fun d => nightMetricsRow d (sleep.filter (fun r => r.date == d)))

/-! ### Static trailing-window baselines (`calculate_baselines`, index_1.py) -/

/-- The Python baselines dict: keys in insertion order with
possibly-NaN values. -/
abbrev BaselineMap := List (String × Option ℚ)

/-- Records of the trailing window: `date ≥ max(date) − days`. -/
def baselineWindow (df : List SessionRec) (days : Int) : List SessionRec :=
  match df with
  | [] => []
  | r :: rs =>
    let latest := (rs.map SessionRec.date).foldl max r.date
    (r :: rs).filter (fun x => decide (latest - days ≤ x.date))

/-- The Sleep-tagged records of the trailing window. -/
def sleepWindow (df : List SessionRec) (days : Int) : List SessionRec :=
  (baselineWindow df days).filter isSleep

/-- `calculate_baselines`: an empty dict when the input is empty or no
Sleep records fall in the window, otherwise the six baseline entries. -/
def calculate_baselines (df : List SessionRec) (days : Int := 14) : BaselineMap :=
  if df.isEmpty then []
  else
    let baseline_df := baselineWindow df days
    let sleep_sessions := sleepWindow df days
    if sleep_sessions.isEmpty then []
    else
      [("hrv", pdMedianOpt (sleep_sessions.map SessionRec.rmssd)),
       ("rhr", some (pdQuantile (1/10) (sleep_sessions.map SessionRec.heartRate))),
       ("sdnn", pdMedianOpt (sleep_sessions.map SessionRec.sdnn)),
       ("breathing_rate", pdMedianOpt (sleep_sessions.map SessionRec.breathingRate)),
       ("hr", some (pdMean (baseline_df.map SessionRec.heartRate))),
       ("lf_hf_ratio", pdMedianOpt (sleep_sessions.map SessionRec.lf_hf))]

/-! ### Score Engine (`calculate_recovery_score`, index_1.py)

Python float comparisons with NaN are `False`, Python `dict.get(k, d)`
defaults an absent key to `d`, and CPython's `min(100, nan)` keeps its
first argument, so `max(0, min(100, nan)) = 100`; these behaviors are
reproduced literally below. -/

/-- `baselines.get(key, default)`. -/
def bmGet (bm : BaselineMap) (key : String) (default : Option ℚ) : Option ℚ :=
  match bm.lookup key with
  | some v => v
  | none => default

/-- `min(rmssd / baseline_rmssd, 1.0) if baseline_rmssd > 0 and rmssd > 0
else 0.5`, with `baseline_rmssd = baselines.get('hrv', rmssd)`. -/
def hrvScoreOf (bm : BaselineMap) (rmssd : Option ℚ) : ℚ :=
  match bmGet bm "hrv" rmssd, rmssd with
  | some b, some r => if 0 < b ∧ 0 < r then min (r / b) 1 else 1/2
  | _, _ => 1/2

/-- `min(baseline_rhr / rhr, 1.0) if baseline_rhr > 0 and rhr > 0 else
0.5`, with `baseline_rhr = baselines.get('rhr', rhr)`. -/
def rhrScoreOf (bm : BaselineMap) (rhr : Option ℚ) : ℚ :=
  match bmGet bm "rhr" rhr, rhr with
  | some b, some r => if 0 < b ∧ 0 < r then min (b / r) 1 else 1/2
  | _, _ => 1/2

/-- `(baseline_hr - avg_hr) / baseline_hr if baseline_hr > 0 else 0`,
with `baseline_hr = baselines.get('hr', avg_hr)`; NaN when
`baseline_hr > 0` but `avg_hr` is NaN. -/
def hrDropScoreOf (bm : BaselineMap) (avg_hr : Option ℚ) : Option ℚ :=
  match bmGet bm "hr" avg_hr with
  | some b =>
    if 0 < b then
      match avg_hr with
      | some a => some ((b - a) / b)
      | none => none
    else some 0
  | none => some 0

/-- `min(duration / 420, 1.0)`. -/
def durationScoreOf (duration : ℚ) : ℚ := min (duration / 420) 1

/-- `1.0 if lf_hf < 2 else 0.8 if lf_hf < 4 else 0.5` (NaN < c is False). -/
def lfhfPenaltyOf (lf_hf : Option ℚ) : ℚ :=
  match lf_hf with
  | some v => if v < 2 then 1 else if v < 4 then 4/5 else 1/2
  | none => 1/2

/-- The per-row body of `calculate_recovery_score`'s loop: compute the
components, the clamped `sleep_quality`, the clamped `recovery_score`,
and store both rounded to one decimal. -/
def scoreNight (bm : BaselineMap) (row : NightMetrics) : NightMetrics :=
  let hrv_score := hrvScoreOf bm row.rmssd
  let rhr_score := rhrScoreOf bm row.rhr
  let rmssd_score := hrv_score
  let hr_drop_score := hrDropScoreOf bm row.mean_hr
  let duration_score := durationScoreOf row.duration_minutes
  let lfhf_penalty := lfhfPenaltyOf row.lf_hf_ratio
  let sleep_quality_raw : Option ℚ :=
    match hr_drop_score with
    | some hd =>
      some ((2/5 * rmssd_score + 3/10 * hd + 1/5 * duration_score
             + 1/10 * lfhf_penalty) * 100)
    | none => none
  let sleep_quality : ℚ :=
    match sleep_quality_raw with
    | some v => max 0 (min 100 v)
    | none => 100
  let recovery_raw : ℚ :=
    (1/2 * hrv_score + 3/10 * rhr_score + 1/5 * (sleep_quality / 100)) * 100
  let recovery : ℚ := max 0 (min 100 recovery_raw)
  { row with
      sleep_quality := some (round1 sleep_quality)
      recovery_score := some (round1 recovery) }

/-- `calculate_recovery_score`: returns the night table unchanged when it
is empty or the baselines dict is empty, else scores every row. -/
def calculate_recovery_score (night_data : List NightMetrics) (baselines : BaselineMap) :
    List NightMetrics :=
  if night_data.isEmpty || baselines.isEmpty then night_data
  else night_data.map (scoreNight baselines)

/-! ### Stress Index (`calculate_stress_index`, index_2.py) -/

/-- `min(1.5, max(0, (hr / baseline_rhr - 0.8) * 2))`. -/
def hrComponent (hr baseline_rhr : ℚ) : ℚ :=
  min (3/2) (max 0 ((hr / baseline_rhr - 4/5) * 2))

/-- `min(1.5, max(0, (1 - hrv / baseline_hrv) * 2))`. -/
def hrvComponent (hrv baseline_hrv : ℚ) : ℚ :=
  min (3/2) (max 0 ((1 - hrv / baseline_hrv) * 2))

/-- The defined-branch value: `round(min(3.0, max(0.0, hr_component +
hrv_component)), 1)`. -/
def stressVal (hr baseline_rhr hrv baseline_hrv : ℚ) : ℚ :=
  round1 (min 3 (max 0 (hrComponent hr baseline_rhr + hrvComponent hrv baseline_hrv)))

/-- `calculate_stress_index`: NaN when any input is NaN or either
baseline is zero, else the clamped rounded composite. -/
def calculate_stress_index (hr baseline_rhr hrv baseline_hrv : Option ℚ) : Option ℚ :=
  match hr, baseline_rhr, hrv, baseline_hrv with
  | some h, some br, some v, some bv =>
    if br = 0 ∨ bv = 0 then none else some (stressVal h br v bv)
  | _, _, _, _ => none

/-! ### Sleep Stage Classifier (`detect_sleep_stages`, index_1.py) -/

/-- NaN-aware `x ≤ y` (False when either side is NaN). -/
def oLe (x y : Option ℚ) : Bool :=
  match x, y with
  | some a, some b => decide (a ≤ b)
  | _, _ => false

/-- Stage label of one record given the night's thresholds. -/
def stageOf (hr_p20 : ℚ) (rmssd_p30 rmssd_p80 : Option ℚ) (mean_hr : ℚ)
    (r : SessionRec) : String :=
  match r.rmssd, r.lf_hf with
  | some rm, some lf =>
    if r.heartRate ≤ hr_p20 ∧ oLe rmssd_p80 (some rm) ∧ lf < 1 then "Deep"
    else if mean_hr < r.heartRate ∧ oLe (some rm) rmssd_p30 ∧ 2 < lf then "REM"
    else "Light"
  | _, _ => "Unknown"

/-- `detect_sleep_stages`: label every record of a night using the
night's own percentiles. -/
def detect_sleep_stages (recs : List SessionRec) : List String :=
  let hr_p20 := pdQuantile (1/5) (recs.map SessionRec.heartRate)
  let rmssd_p30 := pdQuantileOpt (3/10) (recs.map SessionRec.rmssd)
  let rmssd_p80 := pdQuantileOpt (4/5) (recs.map SessionRec.rmssd)
  let mean_hr := pdMean (recs.map SessionRec.heartRate)
  recs.map (stageOf hr_p20 rmssd_p30 rmssd_p80 mean_hr)

/-- `count / total` share of one stage (`0.0` when there are no
classified records). -/
def stageShare (count total : ℕ) : ℚ :=
  if 0 < total then (count : ℚ) / total else 0

/-- Reported per-stage minutes (`main`, index_1.py):
`round(total_minutes * pct, 1)`. -/
def stageMinutes (total_minutes : ℚ) (count total : ℕ) : ℚ :=
  round1 (total_minutes * stageShare count total)

/-! ### Dynamic-baseline engine
(`calculate_daily_metrics_with_dynamic_baselines`, index_2.py)

Here the metric columns are modeled as present (`ℚ`): the engine's
aggregations are taken over sessions that carry their metrics. -/

structure DayRec where
  date : Int
  heartRate : ℚ
  rmssd : ℚ
  breathingRate : ℚ
  tags : List String

def isSleepDay (r : DayRec) : Bool := r.tags.contains "Sleep"

/-- `max(1, int(n * 0.3))`: the size of the "lowest 30%" subset. -/
def lowestCount (n : ℕ) : ℕ := max 1 (3 * n / 10)

/-- The column values of `nsmallest(k, col)`: the `k` smallest values. -/
def nsmallestVals (k : ℕ) (xs : List ℚ) : List ℚ := (sortVals xs).take k

/-- The expanding-window baseline of a sleep metric: median of the
lowest-30% values once ≥ 3 cumulative Sleep records exist, else the
day's own value. -/
def dynBaseline (cum : List ℚ) (fallback : Option ℚ) : Option ℚ :=
  if !cum.isEmpty && 3 ≤ cum.length then
    some (pdMedian (nsmallestVals (lowestCount cum.length) cum))
  else fallback

/-- The per-day `rhr` of the engine (same percentile-or-min rule as the
night aggregator, NaN when the day has no Sleep records). -/
def dayRhr (day_sleep : List DayRec) : Option ℚ :=
  if !day_sleep.isEmpty && 3 ≤ day_sleep.length then
    some (pdQuantile (1/10) (day_sleep.map DayRec.heartRate))
  else if !day_sleep.isEmpty then
    some (pdMin (day_sleep.map DayRec.heartRate))
  else none

/-- One emitted row of the engine. -/
structure DayRow where
  date : Int
  rhr : Option ℚ
  avg_hr : Option ℚ
  hrv : Option ℚ
  breathing_rate : Option ℚ
  stress_index : Option ℚ
  baseline_rhr : Option ℚ
  baseline_hr : Option ℚ
  baseline_hrv : Option ℚ
  baseline_breathing_rate : Option ℚ
  day_number : ℕ

/-- The body of the per-date loop, evaluated after the day's records have
been appended to the cumulative sets. -/
def processDay (day_sleep day_non_sleep cumS cumNS : List DayRec) (date : Int)
    (day_number : ℕ) : DayRow :=
  let rhr := dayRhr day_sleep
  let avg_hr : Option ℚ :=
    if !day_non_sleep.isEmpty then some (pdMean (day_non_sleep.map DayRec.heartRate))
    else none
  let hrv : Option ℚ :=
    if !day_sleep.isEmpty then some (pdMean (day_sleep.map DayRec.rmssd)) else none
  let breathing_rate : Option ℚ :=
    if !day_sleep.isEmpty then some (pdMean (day_sleep.map DayRec.breathingRate))
    else none
  let baseline_hrv := dynBaseline (cumS.map DayRec.rmssd) hrv
  let baseline_rhr := dynBaseline (cumS.map DayRec.heartRate) rhr
  let baseline_hr : Option ℚ :=
    if !cumNS.isEmpty then some (pdMedian (cumNS.map DayRec.heartRate)) else avg_hr
  let baseline_breathing_rate : Option ℚ :=
    if !cumS.isEmpty then some (pdMedian (cumS.map DayRec.breathingRate))
    else breathing_rate
  { date := date
    rhr := rhr
    avg_hr := avg_hr
    hrv := hrv
    breathing_rate := breathing_rate
    stress_index := calculate_stress_index avg_hr baseline_rhr hrv baseline_hrv
    baseline_rhr := baseline_rhr
    baseline_hr := baseline_hr
    baseline_hrv := baseline_hrv
    baseline_breathing_rate := baseline_breathing_rate
    day_number := day_number }

/-- The per-date loop over the ascending unique dates, carrying the
cumulative Sleep / non-Sleep record sets and the day counter. -/
def processDates (sleep_records non_sleep_records : List DayRec) :
    List Int → List DayRec → List DayRec → ℕ → List DayRow
  | [], _, _, _ => []
  | d :: rest, cumS, cumNS, day_number =>
    let day_sleep := sleep_records.filter (fun r => r.date == d)
    let day_non_sleep := non_sleep_records.filter (fun r => r.date == d)
    let cumS' := cumS ++ day_sleep
    let cumNS' := cumNS ++ day_non_sleep
    processDay day_sleep day_non_sleep cumS' cumNS' d day_number ::
      processDates sleep_records non_sleep_records rest cumS' cumNS' (day_number + 1)

/-- `calculate_daily_metrics_with_dynamic_baselines`. -/
def calculate_daily_metrics_with_dynamic_baselines (df : List DayRec) : List DayRow :=
  let sleep_records := df.filter isSleepDay
  let non_sleep_records := df.filter (fun r => !isSleepDay r)
  if sleep_records.isEmpty then []
  else processDates sleep_records non_sleep_records
    (uniqueDatesSorted (df.map DayRec.date)) [] [] 1

/-! ### Sample data used by witnesses -/

/-- A night row carrying self-consistent values. -/
def nightA : NightMetrics :=
  { date := 0, mean_rr := some 1000, sdnn := none, rmssd := some 50,
    lf_hf_ratio := some 1, breathing_rate := none, mean_hr := some 70,
    rhr := some 60, record_count := 1, duration_minutes := 420 }

/-- A baselines dict with all three scoring keys. -/
def baseA : BaselineMap := [("hrv", some 50), ("rhr", some 60), ("hr", some 70)]

/-! ### Claims -/

/-- C9: with a non-empty night table and an empty baselines dict,
`calculate_recovery_score` returns the night data unchanged — no
`sleep_quality` or `recovery_score` values are computed or attached. -/
theorem recovery_unchanged_on_empty_baselines (night_data : List NightMetrics)
    (_hne : night_data ≠ [])
    (hraw : ∀ r ∈ night_data, r.sleep_quality = none ∧ r.recovery_score = none) :
    calculate_recovery_score night_data [] = night_data ∧
    ∀ r ∈ calculate_recovery_score night_data [],
      r.sleep_quality = none ∧ r.recovery_score = none := by
  have h : calculate_recovery_score night_data [] = night_data := by
    simp [calculate_recovery_score]
  exact ⟨h, by rw [h]; exact hraw⟩

theorem recovery_unchanged_on_empty_baselines_witness :
    calculate_recovery_score [nightA] [] = [nightA] ∧
    ∀ r ∈ calculate_recovery_score [nightA] [],
      r.sleep_quality = none ∧ r.recovery_score = none :=
  recovery_unchanged_on_empty_baselines [nightA] (by simp)
    (by intro r hr
        simp only [List.mem_singleton] at hr
        subst hr
        exact ⟨rfl, rfl⟩)

/-- C1 (counterexample): with a non-empty baselines dict that lacks the
`hrv` key, a row with positive raw `rmssd` gets `rmssd_score = 1.0`
(the raw value measured against itself), not the neutral `0.5` the claim
asserts for a missing baseline. -/
theorem missing_key_component_not_half :
    hrvScoreOf [("hr", some 60)] (some 50) = 1 ∧
    hrvScoreOf [("hr", some 60)] (some 50) ≠ 1/2 := by
  have h : hrvScoreOf [("hr", some 60)] (some 50) = 1 := by
    have hb : bmGet [("hr", (some 60 : Option ℚ))] "hrv" (some 50) = some 50 := rfl
    norm_num [hrvScoreOf, hb]
  exact ⟨h, by rw [h]; norm_num⟩

/-- C1 (amended): the 0.5 fallback of `rmssd_score` / `rhr_score` is
driven by the effective baseline — the dict value, defaulting to the
row's own raw metric when the key is absent — and by the raw metric:
whenever either is NaN or ≤ 0 the component is 0.5 (and no exception is
raised, the function being total); when the key is absent and the raw
metric is positive the component is 1.0, not 0.5. -/
theorem score_component_fallbacks (bm : BaselineMap) (x : Option ℚ) :
    (∀ b : ℚ, bmGet bm "hrv" x = some b → b ≤ 0 → hrvScoreOf bm x = 1/2) ∧
    (bmGet bm "hrv" x = none → hrvScoreOf bm x = 1/2) ∧
    (x = none → hrvScoreOf bm x = 1/2) ∧
    (∀ r : ℚ, x = some r → r ≤ 0 → hrvScoreOf bm x = 1/2) ∧
    (bm.lookup "hrv" = none → ∀ r : ℚ, x = some r → 0 < r → hrvScoreOf bm x = 1) ∧
    (∀ b : ℚ, bmGet bm "rhr" x = some b → b ≤ 0 → rhrScoreOf bm x = 1/2) ∧
    (bmGet bm "rhr" x = none → rhrScoreOf bm x = 1/2) ∧
    (x = none → rhrScoreOf bm x = 1/2) ∧
    (∀ r : ℚ, x = some r → r ≤ 0 → rhrScoreOf bm x = 1/2) ∧
    (bm.lookup "rhr" = none → ∀ r : ℚ, x = some r → 0 < r → rhrScoreOf bm x = 1) := by
  refine ⟨?_, ?_, ?_, ?_, ?_, ?_, ?_, ?_, ?_, ?_⟩
  · intro b hb hb0
    unfold hrvScoreOf
    rw [hb]
    cases x with
    | none => rfl
    | some r =>
      show (if 0 < b ∧ 0 < r then min (r / b) 1 else 1/2) = 1/2
      rw [if_neg]
      rintro ⟨h1, _⟩
      linarith
  · intro hb
    unfold hrvScoreOf
    rw [hb]
  · rintro rfl
    unfold hrvScoreOf
    cases hbg : bmGet bm "hrv" none <;> rfl
  · rintro r rfl hr0
    unfold hrvScoreOf
    cases hbg : bmGet bm "hrv" (some r) with
    | none => rfl
    | some b =>
      show (if 0 < b ∧ 0 < r then min (r / b) 1 else 1/2) = 1/2
      rw [if_neg]
      rintro ⟨_, h2⟩
      linarith
  · rintro hl r rfl hr
    unfold hrvScoreOf bmGet
    rw [hl]
    show (if 0 < r ∧ 0 < r then min (r / r) 1 else 1/2) = 1
    rw [if_pos ⟨hr, hr⟩, div_self (ne_of_gt hr), min_self]
  · intro b hb hb0
    unfold rhrScoreOf
    rw [hb]
    cases x with
    | none => rfl
    | some r =>
      show (if 0 < b ∧ 0 < r then min (b / r) 1 else 1/2) = 1/2
      rw [if_neg]
      rintro ⟨h1, _⟩
      linarith
  · intro hb
    unfold rhrScoreOf
    rw [hb]
  · rintro rfl
    unfold rhrScoreOf
    cases hbg : bmGet bm "rhr" none <;> rfl
  · rintro r rfl hr0
    unfold rhrScoreOf
    cases hbg : bmGet bm "rhr" (some r) with
    | none => rfl
    | some b =>
      show (if 0 < b ∧ 0 < r then min (b / r) 1 else 1/2) = 1/2
      rw [if_neg]
      rintro ⟨_, h2⟩
      linarith
  · rintro hl r rfl hr
    unfold rhrScoreOf bmGet
    rw [hl]
    show (if 0 < r ∧ 0 < r then min (r / r) 1 else 1/2) = 1
    rw [if_pos ⟨hr, hr⟩, div_self (ne_of_gt hr), min_self]

theorem score_component_fallbacks_witness :
    hrvScoreOf [("hrv", some 0)] (some 50) = 1/2 ∧
    rhrScoreOf [] (some 50) = 1 := by
  constructor
  · exact (score_component_fallbacks [("hrv", some 0)] (some 50)).1 0
      (by norm_num [bmGet, List.lookup]) le_rfl
  · exact (score_component_fallbacks [] (some 50)).2.2.2.2.2.2.2.2.2
      rfl 50 rfl (by norm_num)

/-- C7: for every night row the stored `sleep_quality` and
`recovery_score` lie in `[0, 100]` — each is clamped to `[0, 100]`
before being rounded and stored — whatever the component values,
including a negative `hr_drop_score`. -/
theorem scores_in_unit_range (bm : BaselineMap) (row : NightMetrics) :
    (∀ q : ℚ, (scoreNight bm row).sleep_quality = some q → 0 ≤ q ∧ q ≤ 100) ∧
    (∀ q : ℚ, (scoreNight bm row).recovery_score = some q → 0 ≤ q ∧ q ≤ 100) := by
  have hclamp : ∀ v : ℚ, 0 ≤ round1 (max 0 (min 100 v)) ∧ round1 (max 0 (min 100 v)) ≤ 100 :=
    fun v => round1_mem_Icc (le_max_left 0 _)
      (max_le (by norm_num) (min_le_left 100 v)) round1_hundred
  have h100 : 0 ≤ round1 (100:ℚ) ∧ round1 (100:ℚ) ≤ 100 := by
    rw [round1_hundred]; norm_num
  constructor
  · intro q hq
    simp only [scoreNight] at hq
    cases hdrop : hrDropScoreOf bm row.mean_hr with
    | none =>
      rw [hdrop] at hq
      simp only [Option.some.injEq] at hq
      exact hq ▸ h100
    | some hd =>
      rw [hdrop] at hq
      simp only [Option.some.injEq] at hq
      exact hq ▸ hclamp _
  · intro q hq
    simp only [scoreNight] at hq
    simp only [Option.some.injEq] at hq
    exact hq ▸ hclamp _

set_option maxHeartbeats 1000000 in
theorem scores_in_unit_range_witness :
    (0 ≤ (70:ℚ) ∧ (70:ℚ) ≤ 100) ∧ (0 ≤ (94:ℚ) ∧ (94:ℚ) ≤ 100) := by
  have e1 : hrvScoreOf baseA (some 50) = 1 := by
    have hb : bmGet baseA "hrv" (some 50) = some 50 := rfl
    norm_num [hrvScoreOf, hb]
  have e2 : rhrScoreOf baseA (some 60) = 1 := by
    have hb : bmGet baseA "rhr" (some 60) = some 60 := rfl
    norm_num [rhrScoreOf, hb]
  have e3 : hrDropScoreOf baseA (some 70) = some 0 := by
    have hb : bmGet baseA "hr" (some 70) = some 70 := rfl
    norm_num [hrDropScoreOf, hb]
  have e4 : durationScoreOf 420 = 1 := by
    norm_num [durationScoreOf]
  have e5 : lfhfPenaltyOf (some 1) = 1 := by
    norm_num [lfhfPenaltyOf]
  have hr70 : round1 70 = 70 := by norm_num [round1, round_eq]
  have hr94 : round1 94 = 94 := by norm_num [round1, round_eq]
  have hsq : (scoreNight baseA nightA).sleep_quality = some 70 := by
    simp only [scoreNight, nightA]
    rw [e1, e3, e4, e5]
    norm_num [min_def, max_def, hr70]
  have hrec : (scoreNight baseA nightA).recovery_score = some 94 := by
    simp only [scoreNight, nightA]
    rw [e1, e2, e3, e4, e5]
    norm_num [min_def, max_def, hr94]
  exact ⟨(scores_in_unit_range baseA nightA).1 70 hsq,
         (scores_in_unit_range baseA nightA).2 94 hrec⟩

/-- C5: the stress index is NaN exactly when some input is NaN or either
baseline is zero; otherwise it equals `clamp(0, 3, hr_component +
hrv_component)` rounded to one decimal, with
`hr_component = clamp(0, 1.5, (hr/baseline_rhr − 0.8) × 2)` and
`hrv_component = clamp(0, 1.5, (1 − hrv/baseline_hrv) × 2)`. -/
theorem stress_index_spec :
    (∀ hr baseline_rhr hrv baseline_hrv : Option ℚ,
      calculate_stress_index hr baseline_rhr hrv baseline_hrv = none ↔
        hr = none ∨ baseline_rhr = none ∨ hrv = none ∨ baseline_hrv = none ∨
        baseline_rhr = some 0 ∨ baseline_hrv = some 0) ∧
    (∀ h br v bv : ℚ, br ≠ 0 → bv ≠ 0 →
      calculate_stress_index (some h) (some br) (some v) (some bv) =
        some (round1 (min 3 (max 0
          (min (3/2) (max 0 ((h / br - 4/5) * 2)) +
           min (3/2) (max 0 ((1 - v / bv) * 2))))))) := by
  constructor
  · intro hr brhr hrv bhrv
    rcases hr with _ | h <;> rcases brhr with _ | br <;>
      rcases hrv with _ | v <;> rcases bhrv with _ | bv <;>
      simp [calculate_stress_index]
    tauto
  · intro h br v bv hbr hbv
    simp [calculate_stress_index, hbr, hbv, stressVal, hrComponent, hrvComponent]

theorem stress_index_spec_witness :
    calculate_stress_index (some 1) (some 2) (some 3) (some 4) =
      some (round1 (min 3 (max 0
        (min (3/2) (max 0 (((1:ℚ) / 2 - 4/5) * 2)) +
         min (3/2) (max 0 ((1 - (3:ℚ) / 4) * 2)))))) :=
  stress_index_spec.2 1 2 3 4 (by norm_num) (by norm_num)

/-- C6: with defined inputs and positive baselines, the stress index is
non-decreasing in `hr`, non-increasing in `hrv`, and always in `[0, 3]`. -/
theorem stress_index_monotone (br bv h h' v v' : ℚ)
    (hbr : 0 < br) (hbv : 0 < bv) :
    (h ≤ h' → stressVal h br v bv ≤ stressVal h' br v bv) ∧
    (v ≤ v' → stressVal h br v' bv ≤ stressVal h br v bv) ∧
    (0 ≤ stressVal h br v bv ∧ stressVal h br v bv ≤ 3) := by
  refine ⟨?_, ?_, ?_⟩
  · intro hh
    unfold stressVal hrComponent hrvComponent
    exact round1_mono (by gcongr)
  · intro hv
    unfold stressVal hrComponent hrvComponent
    exact round1_mono (by gcongr)
  · unfold stressVal
    exact round1_mem_Icc (le_min (by norm_num) (le_max_left 0 _))
      (min_le_left 3 _) round1_three

theorem stress_index_monotone_witness :
    ((1:ℚ) ≤ 2 → stressVal 1 5 7 6 ≤ stressVal 2 5 7 6) ∧
    ((7:ℚ) ≤ 8 → stressVal 1 5 8 6 ≤ stressVal 1 5 7 6) ∧
    (0 ≤ stressVal 1 5 7 6 ∧ stressVal 1 5 7 6 ≤ 3) :=
  stress_index_monotone 5 6 1 2 7 8 (by norm_num) (by norm_num)

/-- C4: a night group's `rhr` is the 10th percentile of `heart_rate`
with ≥ 3 records and exactly the minimum (an element of the group,
below every other value — no interpolation) with < 3 records; the
per-day `rhr` of the dynamic-baseline engine follows the same rule. -/
theorem rhr_percentile_or_min (group : List SessionRec) (ds : List DayRec)
    (hg : group ≠ [])
    (hsame : group.map SessionRec.heartRate = ds.map DayRec.heartRate) :
    (∀ d : Int, (nightMetricsRow d group).rhr =
        some (rhrOfHeartRates (group.map SessionRec.heartRate))) ∧
    dayRhr ds = some (rhrOfHeartRates (group.map SessionRec.heartRate)) ∧
    (3 ≤ group.length →
      rhrOfHeartRates (group.map SessionRec.heartRate) =
        pdQuantile (1/10) (group.map SessionRec.heartRate)) ∧
    (group.length < 3 →
      rhrOfHeartRates (group.map SessionRec.heartRate) ∈ group.map SessionRec.heartRate ∧
      ∀ x ∈ group.map SessionRec.heartRate,
        rhrOfHeartRates (group.map SessionRec.heartRate) ≤ x) := by
  have hlen : group.length = ds.length := by
    have := congrArg List.length hsame
    simpa using this
  have hdsne : ds ≠ [] := by
    intro hnil
    rw [hnil] at hlen
    exact hg (List.length_eq_zero.mp (by simpa using hlen))
  refine ⟨fun d => rfl, ?_, ?_, ?_⟩
  · by_cases h3 : 3 ≤ ds.length
    · have : dayRhr ds = some (pdQuantile (1/10) (ds.map DayRec.heartRate)) := by
        simp [dayRhr, hdsne, h3]
      rw [this, rhrOfHeartRates,
        if_pos (by simp only [List.length_map, hlen]; exact h3), hsame]
    · have : dayRhr ds = some (pdMin (ds.map DayRec.heartRate)) := by
        simp [dayRhr, hdsne, h3]
      rw [this, rhrOfHeartRates,
        if_neg (by simp only [List.length_map, hlen]; omega), hsame]
  · intro h3
    rw [rhrOfHeartRates, if_pos (by simpa using h3)]
  · intro h3
    have hmapne : group.map SessionRec.heartRate ≠ [] := by
      simpa using hg
    rw [rhrOfHeartRates, if_neg (by simp; omega)]
    exact ⟨pdMin_mem hmapne, fun x hx => pdMin_le hx⟩

theorem rhr_percentile_or_min_witness :
    (∀ d : Int,
      (nightMetricsRow d [⟨0, 0, 55, none, none, none, none, none, ["Sleep"]⟩]).rhr =
        some (rhrOfHeartRates [55])) ∧
    dayRhr [⟨0, 55, 40, 12, ["Sleep"]⟩] = some (rhrOfHeartRates [55]) ∧
    (3 ≤ ([⟨0, 0, 55, none, none, none, none, none, ["Sleep"]⟩] :
        List SessionRec).length → rhrOfHeartRates [55] = pdQuantile (1/10) [55]) ∧
    (([⟨0, 0, 55, none, none, none, none, none, ["Sleep"]⟩] :
        List SessionRec).length < 3 →
      rhrOfHeartRates [55] ∈ [(55:ℚ)] ∧ ∀ x ∈ [(55:ℚ)], rhrOfHeartRates [55] ≤ x) :=
  rhr_percentile_or_min [⟨0, 0, 55, none, none, none, none, none, ["Sleep"]⟩]
    [⟨0, 55, 40, 12, ["Sleep"]⟩] (by simp) rfl

/-- C8: the static trailing-window baselines dict is empty exactly when
no Sleep records fall in the window; otherwise its `hr` entry is the
mean of `heart_rate` over all windowed records (sleep and non-sleep)
while `hrv`, `rhr`, `sdnn`, `breathing_rate` and `lf_hf_ratio` are
computed over the windowed Sleep records only. -/
theorem baselines_window_spec (df : List SessionRec) (days : Int) :
    (calculate_baselines df days = [] ↔ sleepWindow df days = []) ∧
    (sleepWindow df days ≠ [] →
      (calculate_baselines df days).lookup "hr" =
        some (some (pdMean ((baselineWindow df days).map SessionRec.heartRate))) ∧
      (calculate_baselines df days).lookup "hrv" =
        some (pdMedianOpt ((sleepWindow df days).map SessionRec.rmssd)) ∧
      (calculate_baselines df days).lookup "rhr" =
        some (some (pdQuantile (1/10) ((sleepWindow df days).map SessionRec.heartRate))) ∧
      (calculate_baselines df days).lookup "sdnn" =
        some (pdMedianOpt ((sleepWindow df days).map SessionRec.sdnn)) ∧
      (calculate_baselines df days).lookup "breathing_rate" =
        some (pdMedianOpt ((sleepWindow df days).map SessionRec.breathingRate)) ∧
      (calculate_baselines df days).lookup "lf_hf_ratio" =
        some (pdMedianOpt ((sleepWindow df days).map SessionRec.lf_hf))) := by
  by_cases hdf : df = []
  · subst hdf
    constructor
    · simp [calculate_baselines, sleepWindow, baselineWindow]
    · intro hne
      exact absurd (by simp [sleepWindow, baselineWindow]) hne
  · have hdfe : df.isEmpty = false := by
      simpa [List.isEmpty_iff] using hdf
    by_cases hsw : sleepWindow df days = []
    · constructor
      · simp [calculate_baselines, hdfe, hsw]
      · intro hne
        exact absurd hsw hne
    · have hswe : (sleepWindow df days).isEmpty = false := by
        simpa [List.isEmpty_iff] using hsw
      have hcb : calculate_baselines df days =
          [("hrv", pdMedianOpt ((sleepWindow df days).map SessionRec.rmssd)),
           ("rhr", some (pdQuantile (1/10) ((sleepWindow df days).map SessionRec.heartRate))),
           ("sdnn", pdMedianOpt ((sleepWindow df days).map SessionRec.sdnn)),
           ("breathing_rate", pdMedianOpt ((sleepWindow df days).map SessionRec.breathingRate)),
           ("hr", some (pdMean ((baselineWindow df days).map SessionRec.heartRate))),
           ("lf_hf_ratio", pdMedianOpt ((sleepWindow df days).map SessionRec.lf_hf))] := by
        simp [calculate_baselines, hdfe, hswe]
      constructor
      · rw [hcb]
        simp [hsw]
      · intro _
        rw [hcb]
        refine ⟨?_, ?_, ?_, ?_, ?_, ?_⟩ <;> rfl

theorem baselines_window_spec_witness :
    (sleepWindow [⟨0, 0, 55, none, none, some 42, none, none, ["Sleep"]⟩] 14 ≠ []) ∧
    (calculate_baselines [⟨0, 0, 55, none, none, some 42, none, none, ["Sleep"]⟩] 14).lookup "hr" =
      some (some (pdMean ((baselineWindow
        [⟨0, 0, 55, none, none, some 42, none, none, ["Sleep"]⟩] 14).map SessionRec.heartRate))) := by
  have hsw : sleepWindow [⟨0, 0, 55, none, none, some 42, none, none, ["Sleep"]⟩] 14 ≠ [] := by
    simp [sleepWindow, baselineWindow, isSleep]
  exact ⟨hsw, ((baselines_window_spec
    [⟨0, 0, 55, none, none, some 42, none, none, ["Sleep"]⟩] 14).2 hsw).1⟩

theorem detect_sleep_stages_length (recs : List SessionRec) :
    (detect_sleep_stages recs).length = recs.length := by
  simp [detect_sleep_stages]

theorem detect_sleep_stages_mem (recs : List SessionRec) :
    ∀ x ∈ detect_sleep_stages recs,
      x = "Deep" ∨ x = "REM" ∨ x = "Light" ∨ x = "Unknown" := by
  intro x hx
  simp only [detect_sleep_stages, List.mem_map] at hx
  obtain ⟨r, _, rfl⟩ := hx
  unfold stageOf
  split
  · split_ifs <;> simp
  · simp

theorem count_four_labels (L : List String)
    (h : ∀ x ∈ L, x = "Deep" ∨ x = "REM" ∨ x = "Light" ∨ x = "Unknown") :
    L.count "Deep" + L.count "REM" + L.count "Light" + L.count "Unknown" = L.length := by
  induction L with
  | nil => simp
  | cons a t ih =>
    have ht := ih (fun x hx => h x (List.mem_cons_of_mem a hx))
    have ha := h a (List.mem_cons_self a t)
    have key : ∀ s : String, (a :: t).count s =
        t.count s + (if s = a then 1 else 0) := by
      intro s
      by_cases hsa : s = a
      · subst hsa
        rw [List.count_cons_self, if_pos rfl]
      · rw [List.count_cons_of_ne hsa, if_neg hsa]
        omega
    rcases ha with rfl | rfl | rfl | rfl <;> simp [key] <;> omega

/-- C3 (counterexample): for a night of wall-clock span 0.5 minutes with
one Deep, one REM and one Light record (no Unknown), each reported stage
share rounds 1/6 up to 0.2, so the reported minutes are not equal to
`total × count/total-count` and their sum 0.6 exceeds the night's 0.5
total minutes. -/
theorem stage_minutes_rounding_cx :
    stageMinutes (1/2) 1 3 ≠ (1/2) * stageShare 1 3 ∧
    (1/2 : ℚ) < stageMinutes (1/2) 1 3 + stageMinutes (1/2) 1 3 + stageMinutes (1/2) 1 3 := by
  have hs : stageShare 1 3 = 1/3 := by norm_num [stageShare]
  have hm : stageMinutes (1/2) 1 3 = 1/5 := by
    norm_num [stageMinutes, hs, round1, round_eq]
  rw [hm, hs]
  norm_num

theorem stageShare_nonneg (c n : ℕ) : 0 ≤ stageShare c n := by
  unfold stageShare
  split
  · positivity
  · exact le_refl 0

/-- C3 (amended): every classified record counts toward the denominator
(the four stage counts sum to the record count); each reported
stage-minutes value equals `round1(total_minutes × stage share)`; the
three pre-rounding Deep/REM/Light minutes sum to at most the total night
minutes, and the reported (rounded) ones exceed it by at most 0.15. -/
theorem stage_minutes_bounds (recs : List SessionRec) (T : ℚ)
    (hne : recs ≠ []) (hT : 0 ≤ T) :
    (detect_sleep_stages recs).count "Deep" + (detect_sleep_stages recs).count "REM" +
      (detect_sleep_stages recs).count "Light" + (detect_sleep_stages recs).count "Unknown" =
      recs.length ∧
    stageMinutes T ((detect_sleep_stages recs).count "Deep") recs.length =
      round1 (T * stageShare ((detect_sleep_stages recs).count "Deep") recs.length) ∧
    T * stageShare ((detect_sleep_stages recs).count "Deep") recs.length +
      T * stageShare ((detect_sleep_stages recs).count "REM") recs.length +
      T * stageShare ((detect_sleep_stages recs).count "Light") recs.length ≤ T ∧
    stageMinutes T ((detect_sleep_stages recs).count "Deep") recs.length +
      stageMinutes T ((detect_sleep_stages recs).count "REM") recs.length +
      stageMinutes T ((detect_sleep_stages recs).count "Light") recs.length ≤ T + 3/20 := by
  set L := detect_sleep_stages recs with hL
  have hcount : L.count "Deep" + L.count "REM" + L.count "Light" + L.count "Unknown" =
      recs.length := by
    rw [← detect_sleep_stages_length recs]
    exact count_four_labels L (detect_sleep_stages_mem recs)
  have hn : 0 < recs.length := List.length_pos.mpr hne
  have hshare : ∀ c : ℕ, stageShare c recs.length = (c : ℚ) / recs.length :=
    fun c => if_pos hn
  have hsumshare :
      T * stageShare (L.count "Deep") recs.length +
        T * stageShare (L.count "REM") recs.length +
        T * stageShare (L.count "Light") recs.length ≤ T := by
    rw [hshare, hshare, hshare]
    have hle : ((L.count "Deep" : ℚ) + L.count "REM" + L.count "Light") / recs.length ≤ 1 := by
      rw [div_le_one (by exact_mod_cast hn)]
      have : L.count "Deep" + L.count "REM" + L.count "Light" ≤ recs.length := by omega
      exact_mod_cast this
    calc T * ((L.count "Deep" : ℚ) / recs.length) +
          T * ((L.count "REM" : ℚ) / recs.length) +
          T * ((L.count "Light" : ℚ) / recs.length)
        = T * (((L.count "Deep" : ℚ) + L.count "REM" + L.count "Light") / recs.length) := by
          ring
      _ ≤ T * 1 := mul_le_mul_of_nonneg_left hle hT
      _ = T := mul_one T
  refine ⟨hcount, rfl, hsumshare, ?_⟩
  have hb : ∀ c : ℕ, stageMinutes T c recs.length ≤ T * stageShare c recs.length + 1/20 :=
    fun c => round1_le _
  calc stageMinutes T (L.count "Deep") recs.length +
        stageMinutes T (L.count "REM") recs.length +
        stageMinutes T (L.count "Light") recs.length
      ≤ (T * stageShare (L.count "Deep") recs.length + 1/20) +
        (T * stageShare (L.count "REM") recs.length + 1/20) +
        (T * stageShare (L.count "Light") recs.length + 1/20) := by
        have h1 := hb (L.count "Deep")
        have h2 := hb (L.count "REM")
        have h3 := hb (L.count "Light")
        linarith
    _ ≤ T + 3/20 := by linarith

theorem stage_minutes_bounds_witness :
    (detect_sleep_stages [⟨0, 0, 55, none, none, none, none, none, ["Sleep"]⟩]).count "Deep" +
      (detect_sleep_stages [⟨0, 0, 55, none, none, none, none, none, ["Sleep"]⟩]).count "REM" +
      (detect_sleep_stages [⟨0, 0, 55, none, none, none, none, none, ["Sleep"]⟩]).count "Light" +
      (detect_sleep_stages [⟨0, 0, 55, none, none, none, none, none, ["Sleep"]⟩]).count "Unknown" =
      ([⟨0, 0, 55, none, none, none, none, none, ["Sleep"]⟩] : List SessionRec).length ∧
    stageMinutes 480 ((detect_sleep_stages [⟨0, 0, 55, none, none, none, none, none, ["Sleep"]⟩]).count "Deep")
        ([⟨0, 0, 55, none, none, none, none, none, ["Sleep"]⟩] : List SessionRec).length =
      round1 (480 * stageShare
        ((detect_sleep_stages [⟨0, 0, 55, none, none, none, none, none, ["Sleep"]⟩]).count "Deep")
        ([⟨0, 0, 55, none, none, none, none, none, ["Sleep"]⟩] : List SessionRec).length) ∧
    480 * stageShare ((detect_sleep_stages [⟨0, 0, 55, none, none, none, none, none, ["Sleep"]⟩]).count "Deep")
        ([⟨0, 0, 55, none, none, none, none, none, ["Sleep"]⟩] : List SessionRec).length +
      480 * stageShare ((detect_sleep_stages [⟨0, 0, 55, none, none, none, none, none, ["Sleep"]⟩]).count "REM")
        ([⟨0, 0, 55, none, none, none, none, none, ["Sleep"]⟩] : List SessionRec).length +
      480 * stageShare ((detect_sleep_stages [⟨0, 0, 55, none, none, none, none, none, ["Sleep"]⟩]).count "Light")
        ([⟨0, 0, 55, none, none, none, none, none, ["Sleep"]⟩] : List SessionRec).length ≤ 480 ∧
    stageMinutes 480 ((detect_sleep_stages [⟨0, 0, 55, none, none, none, none, none, ["Sleep"]⟩]).count "Deep")
        ([⟨0, 0, 55, none, none, none, none, none, ["Sleep"]⟩] : List SessionRec).length +
      stageMinutes 480 ((detect_sleep_stages [⟨0, 0, 55, none, none, none, none, none, ["Sleep"]⟩]).count "REM")
        ([⟨0, 0, 55, none, none, none, none, none, ["Sleep"]⟩] : List SessionRec).length +
      stageMinutes 480 ((detect_sleep_stages [⟨0, 0, 55, none, none, none, none, none, ["Sleep"]⟩]).count "Light")
        ([⟨0, 0, 55, none, none, none, none, none, ["Sleep"]⟩] : List SessionRec).length ≤ 480 + 3/20 :=
  stage_minutes_bounds [⟨0, 0, 55, none, none, none, none, none, ["Sleep"]⟩] 480
    (by simp) (by norm_num)

theorem dynBaseline_fallback {xs : List ℚ} (h : xs.length < 3) (fb : Option ℚ) :
    dynBaseline xs fb = fb := by
  have hd : decide (3 ≤ xs.length) = false := by
    simp only [decide_eq_false_iff_not]
    omega
  simp [dynBaseline, hd]

/-- Cumulative sleep records used by the dynamic-baseline samples. -/
def dfC2 : List DayRec :=
  [⟨0, 50, 10, 12, ["Sleep"]⟩, ⟨0, 60, 20, 12, ["Sleep"]⟩, ⟨0, 70, 60, 12, ["Sleep"]⟩]

/-- C2 (counterexample): a first day holding three Sleep records gets
`baseline_hrv = 10` (median of the lowest-30% subset) while the day's
own raw `hrv` is `30`, and `baseline_rhr = 50` while the day's raw
`rhr` is `52`: on day 1 with ≥ 3 records the baseline is not the day's
own raw metric. -/
theorem first_day_baseline_cx :
    ((calculate_daily_metrics_with_dynamic_baselines dfC2).map
      (fun row => (row.day_number, row.hrv, row.baseline_hrv, row.rhr, row.baseline_rhr))) =
      [(1, some 30, some 10, some 52, some 50)] ∧
    (some (30:ℚ) ≠ some (10:ℚ)) ∧ (some (52:ℚ) ≠ some (50:ℚ)) := by
  have hu : uniqueDatesSorted (dfC2.map DayRec.date) = [0] := rfl
  have hsl : dfC2.filter isSleepDay = dfC2 := rfl
  have hns : dfC2.filter (fun r => !isSleepDay r) = [] := rfl
  have hday : dfC2.filter (fun r => r.date == (0:Int)) = dfC2 := rfl
  have hsort : sortVals (dfC2.map DayRec.rmssd) = [10, 20, 60] := by
    norm_num [dfC2, sortVals, List.insertionSort, List.orderedInsert]
  have hsortHr : sortVals (dfC2.map DayRec.heartRate) = [50, 60, 70] := by
    norm_num [dfC2, sortVals, List.insertionSort, List.orderedInsert]
  have hmed10 : pdMedian [(10:ℚ)] = 10 := by
    norm_num [pdMedian, pdQuantile, sortVals, List.insertionSort, List.orderedInsert]
  have hmed50 : pdMedian [(50:ℚ)] = 50 := by
    norm_num [pdMedian, pdQuantile, sortVals, List.insertionSort, List.orderedInsert]
  have hq : pdQuantile (1/10) (dfC2.map DayRec.heartRate) = 52 := by
    norm_num [dfC2, pdQuantile, sortVals, List.insertionSort, List.orderedInsert]
  have hmean : pdMean (dfC2.map DayRec.rmssd) = 30 := by
    norm_num [dfC2, pdMean]
  have hlc : lowestCount (dfC2.map DayRec.rmssd).length = 1 := rfl
  have hlcHr : lowestCount (dfC2.map DayRec.heartRate).length = 1 := rfl
  refine ⟨?_, by norm_num, by norm_num⟩
  simp only [calculate_daily_metrics_with_dynamic_baselines, hsl, hns, hu]
  rw [if_neg (by simp [dfC2])]
  simp only [processDates, hday, List.filter_nil, List.nil_append, List.append_nil]
  simp only [List.map_cons, List.map_nil, List.cons.injEq, and_true]
  simp only [processDay, dayRhr, dynBaseline, hlc, hlcHr]
  norm_num [dfC2, nsmallestVals, hsort, hsortHr, hmed10, hmed50, hq, hmean, pdMean]
  have hs1 : sortVals [(10:ℚ), 20, 60] = [10, 20, 60] := by
    norm_num [sortVals, List.insertionSort, List.orderedInsert]
  have hs2 : sortVals [(50:ℚ), 60, 70] = [50, 60, 70] := by
    norm_num [sortVals, List.insertionSort, List.orderedInsert]
  refine ⟨?_, ?_, ?_⟩
  · rw [hs1]
    norm_num [hmed10]
  · norm_num [pdQuantile, sortVals, List.insertionSort, List.orderedInsert]
  · rw [hs2]
    norm_num [hmed50]

/-- C2 (amended): the first emitted row (day_number 1) carries
`baseline_hrv` / `baseline_rhr` equal to that day's own raw `hrv` /
`rhr` whenever the first processed date has fewer than 3 Sleep records;
with ≥ 3 Sleep records the lowest-30% median rule already applies on
day 1. -/
theorem first_day_baseline_is_raw (df : List DayRec) (d : Int) (rest : List Int)
    (hsleep : df.filter isSleepDay ≠ [])
    (hdates : uniqueDatesSorted (df.map DayRec.date) = d :: rest)
    (hcount : ((df.filter isSleepDay).filter (fun r => r.date == d)).length < 3) :
    ∃ row : DayRow,
      (calculate_daily_metrics_with_dynamic_baselines df).head? = some row ∧
      row.day_number = 1 ∧ row.baseline_hrv = row.hrv ∧ row.baseline_rhr = row.rhr := by
  have hse : (df.filter isSleepDay).isEmpty = false := by
    simpa [List.isEmpty_iff] using hsleep
  have hhd : (calculate_daily_metrics_with_dynamic_baselines df).head? =
      some (processDay ((df.filter isSleepDay).filter (fun r => r.date == d))
        ((df.filter (fun r => !isSleepDay r)).filter (fun r => r.date == d))
        ([] ++ (df.filter isSleepDay).filter (fun r => r.date == d))
        ([] ++ (df.filter (fun r => !isSleepDay r)).filter (fun r => r.date == d))
        d 1) := by
    simp only [calculate_daily_metrics_with_dynamic_baselines, hse, Bool.false_eq_true,
      if_false, hdates, processDates, List.head?_cons]
  have hlt1 : (((([] : List DayRec) ++
      (df.filter isSleepDay).filter (fun r => r.date == d))).map
      DayRec.rmssd).length < 3 := by
    simpa using hcount
  have hlt2 : (((([] : List DayRec) ++
      (df.filter isSleepDay).filter (fun r => r.date == d))).map
      DayRec.heartRate).length < 3 := by
    simpa using hcount
  refine ⟨_, hhd, rfl, ?_, ?_⟩
  · simp only [processDay]
    rw [dynBaseline_fallback hlt1]
  · simp only [processDay]
    rw [dynBaseline_fallback hlt2]

theorem first_day_baseline_is_raw_witness :
    ∃ row : DayRow,
      (calculate_daily_metrics_with_dynamic_baselines
        [⟨0, 50, 10, 12, ["Sleep"]⟩, ⟨0, 60, 20, 12, ["Sleep"]⟩]).head? = some row ∧
      row.day_number = 1 ∧ row.baseline_hrv = row.hrv ∧ row.baseline_rhr = row.rhr :=
  first_day_baseline_is_raw
    [⟨0, 50, 10, 12, ["Sleep"]⟩, ⟨0, 60, 20, 12, ["Sleep"]⟩] 0 []
    (by simp [isSleepDay]) rfl (by simp [isSleepDay])

/-- C10: once ≥ 3 cumulative Sleep records exist, the lowest-30% subset
feeding the dynamic baseline has exactly `max(1, ⌊0.3 n⌋)` elements —
the k smallest column values — and the baseline is the median of that
never-empty subset. -/
theorem dyn_baseline_lowest30 (cumS : List DayRec) (col : DayRec → ℚ)
    (fallback : Option ℚ) (h3 : 3 ≤ cumS.length) :
    dynBaseline (cumS.map col) fallback =
      some (pdMedian (nsmallestVals (lowestCount cumS.length) (cumS.map col))) ∧
    lowestCount cumS.length = max 1 (3 * cumS.length / 10) ∧
    (nsmallestVals (lowestCount cumS.length) (cumS.map col)).length =
      lowestCount cumS.length ∧
    nsmallestVals (lowestCount cumS.length) (cumS.map col) ≠ [] ∧
    (∀ x ∈ nsmallestVals (lowestCount cumS.length) (cumS.map col),
      ∀ y ∈ (sortVals (cumS.map col)).drop (lowestCount cumS.length), x ≤ y) := by
  have hlenmap : (cumS.map col).length = cumS.length := List.length_map _ _
  have hne : cumS.map col ≠ [] := by
    intro h0
    rw [h0] at hlenmap
    simp at hlenmap
    omega
  have hcond : (!(cumS.map col).isEmpty && decide (3 ≤ (cumS.map col).length)) = true := by
    simp [List.isEmpty_iff, hne, hlenmap, h3]
  have hk1 : 1 ≤ lowestCount cumS.length := le_max_left 1 _
  have hkn : lowestCount cumS.length ≤ cumS.length := by
    unfold lowestCount
    omega
  have hlen : (nsmallestVals (lowestCount cumS.length) (cumS.map col)).length =
      lowestCount cumS.length := by
    unfold nsmallestVals
    rw [List.length_take, sortVals_length, hlenmap]
    omega
  refine ⟨?_, rfl, hlen, ?_, ?_⟩
  · unfold dynBaseline
    rw [hcond, if_pos rfl, hlenmap]
  · intro h0
    rw [h0] at hlen
    simp at hlen
    omega
  · have hs := sortVals_sorted (cumS.map col)
    rw [← List.take_append_drop (lowestCount cumS.length) (sortVals (cumS.map col))] at hs
    exact fun x hx y hy => (List.pairwise_append.mp hs).2.2 x hx y hy

theorem dyn_baseline_lowest30_witness :
    dynBaseline (dfC2.map DayRec.rmssd) none =
      some (pdMedian (nsmallestVals (lowestCount dfC2.length) (dfC2.map DayRec.rmssd))) ∧
    lowestCount dfC2.length = max 1 (3 * dfC2.length / 10) ∧
    (nsmallestVals (lowestCount dfC2.length) (dfC2.map DayRec.rmssd)).length =
      lowestCount dfC2.length ∧
    nsmallestVals (lowestCount dfC2.length) (dfC2.map DayRec.rmssd) ≠ [] ∧
    (∀ x ∈ nsmallestVals (lowestCount dfC2.length) (dfC2.map DayRec.rmssd),
      ∀ y ∈ (sortVals (dfC2.map DayRec.rmssd)).drop (lowestCount dfC2.length), x ≤ y) :=
  dyn_baseline_lowest30 dfC2 DayRec.rmssd none (by norm_num [dfC2])

end HealthAssist
